import Mathlib

/-!
Verification development for the CLIProxyAPI-Dashboard usage collector.

This file gives a shallow embedding of the collector's core logic
(collector/main.py, collector/rate_limiter.py,
collector/credential_stats_sync.py) and proves properties of it.

Modelling conventions:
* Python dicts are modelled as association lists with unique keys,
  looked up by first occurrence; insertion order is preserved.
* Python sets used only for key-union iteration are modelled as the
  left list of keys followed by the right keys not already present
  (the claims proved below are insensitive to the iteration order).
* Monetary amounts (Python floats) are modelled as exact rationals.
* Timestamps are modelled as integer seconds since an epoch falling
  on a Monday 00:00 in the collector's fixed-offset timezone.
* Per-(model, endpoint) keys, joined with a pipe character in the
  source, are modelled as pairs of strings.
-/

namespace Collector

attribute [local semireducible] Rat.add Rat.mul Rat.inv Rat.sub Rat.ofScientific

/-- Python str.lower(), written as a character map so that concrete
terms reduce in the kernel (String.toLower is compiled by well-founded
recursion and does not). -/
def strLower (s : String) : String := String.mk (s.data.map Char.toLower)

/-- Stable insertion into a list sorted by the boolean relation. -/
def stableInsert {α : Type} (le : α → α → Bool) (x : α) : List α → List α
  | [] => [x]
  | y :: ys => if le x y then x :: y :: ys else y :: stableInsert le x ys

/-- Stable sort by a boolean relation (Python sorted and list.sort are
stable; any stable sort computes the same list for a total preorder). -/
def stableSort {α : Type} (le : α → α → Bool) (l : List α) : List α :=
  l.foldr (stableInsert le) []

/-- Python max on integers written with an explicit comparison (kept
free of typeclass indirection so concrete terms reduce in the kernel). -/
def intMax (a b : Int) : Int := if a ≤ b then b else a

/-- Python min on integers. -/
def intMin (a b : Int) : Int := if b ≤ a then b else a

/-- Python max on rationals. -/
def ratMax (a b : Rat) : Rat := if a ≤ b then b else a

/-- Python min on rationals. -/
def ratMin (a b : Rat) : Rat := if b ≤ a then b else a

/-- Python abs on rationals. -/
def ratAbs (a : Rat) : Rat := if a < 0 then -a else a

/-- Association-list lookup by string key, first occurrence wins
(the semantics of a Python dict with unique keys). -/
def alookup {α : Type} : List (String × α) → String → Option α
  | [], _ => none
  | (k', v) :: rest, k => if k' = k then some v else alookup rest k

/-- Python dict idiom "if k not in d: d[k] = init; then mutate d[k]":
replace the first binding of the key by its image under f, or append
the image of the initial value when the key is absent. -/
def adjustOrInit {α : Type} : List (String × α) → String → α → (α → α) → List (String × α)
  | [], k, init, f => [(k, f init)]
  | (k', v) :: rest, k, init, f =>
    if k' = k then (k', f v) :: rest else (k', v) :: adjustOrInit rest k init f

/- ============================================================
   PricingResolver (collector/main.py lines 51-204)
   ============================================================ -/

/-- Per-model price, USD per million tokens. -/
structure Price where
  input : Rat
  output : Rat
deriving DecidableEq, Repr

/-- DEFAULT_PRICING from collector/main.py (lines 51-86), in source order. -/
def DEFAULT_PRICING : List (String × Price) :=
  [ ("gpt-4o", ⟨5/2, 10⟩),
    ("gpt-4o-mini", ⟨3/20, 3/5⟩),
    ("gpt-4-turbo", ⟨10, 30⟩),
    ("gpt-4", ⟨30, 60⟩),
    ("gpt-3.5-turbo", ⟨1/2, 3/2⟩),
    ("o1", ⟨15, 60⟩),
    ("o1-mini", ⟨3, 12⟩),
    ("o1-preview", ⟨15, 60⟩),
    ("o3", ⟨15, 60⟩),
    ("o3-mini", ⟨11/10, 22/5⟩),
    ("claude-sonnet-4", ⟨3, 15⟩),
    ("claude-4-sonnet", ⟨3, 15⟩),
    ("claude-opus-4", ⟨15, 75⟩),
    ("claude-4-opus", ⟨15, 75⟩),
    ("claude-3-5-sonnet", ⟨3, 15⟩),
    ("claude-3.5-sonnet", ⟨3, 15⟩),
    ("claude-3-5-haiku", ⟨4/5, 4⟩),
    ("claude-3.5-haiku", ⟨4/5, 4⟩),
    ("claude-3-sonnet", ⟨3, 15⟩),
    ("claude-3-opus", ⟨15, 75⟩),
    ("claude-3-haiku", ⟨1/4, 5/4⟩),
    ("claude-sonnet", ⟨3, 15⟩),
    ("claude-opus", ⟨15, 75⟩),
    ("claude-haiku", ⟨4/5, 4⟩),
    ("gemini-2.5-pro", ⟨5/4, 10⟩),
    ("gemini-2.5-flash", ⟨3/40, 3/10⟩),
    ("gemini-2.5-flash-preview", ⟨3/40, 3/10⟩),
    ("gemini-2.0-flash", ⟨1/10, 2/5⟩),
    ("gemini-2.0-flash-lite", ⟨3/40, 3/10⟩),
    ("gemini-2.0-flash-exp", ⟨1/10, 2/5⟩),
    ("gemini-1.5-pro", ⟨5/4, 5⟩),
    ("gemini-1.5-flash", ⟨3/40, 3/10⟩),
    ("_default", ⟨3/20, 3/5⟩) ]

/-- Python dict merge expression, as in get_model_pricing: keys of the
base in their order with overlay values overriding, then overlay-only
keys appended in overlay order. -/
def mergeDicts {α : Type} (base overlay : List (String × α)) : List (String × α) :=
  base.map (fun p => (p.1, (alookup overlay p.1).getD p.2)) ++
    overlay.filter (fun p => (alookup base p.1).isNone)

/-- get_model_pricing (collector/main.py lines 185-190): the remote
overlay merged over the built-in table, or the built-in table alone
when the remote fetch yielded nothing. -/
def get_model_pricing (remote : List (String × Price)) : List (String × Price) :=
  if remote.isEmpty then DEFAULT_PRICING else mergeDicts DEFAULT_PRICING remote

/-- Test whether the first character list begins the second. -/
def charsStartWith : List Char → List Char → Bool
  | [], _ => true
  | _ :: _, [] => false
  | a :: as, b :: bs => a = b && charsStartWith as bs

/-- Test whether the first character list occurs contiguously in the second. -/
def charsContain (needle : List Char) : List Char → Bool
  | [] => needle.isEmpty
  | c :: rest => charsStartWith needle (c :: rest) || charsContain needle rest

/-- Substring test used to model the Python expression
"pattern in model_lower or model_lower in pattern". -/
def strContains (haystack needle : String) : Bool :=
  charsContain needle.data haystack.data

/-- find_pricing_for_model (collector/main.py lines 192-200). -/
def find_pricing_for_model (model_name : String) (pricing : List (String × Price)) :
    Price × Bool :=
  let model_lower := strLower model_name
  match alookup pricing model_lower with
  | some p => (p, true)
  | none =>
    match pricing.find? (fun q =>
        q.1 != "_default" && (strContains model_lower q.1 || strContains q.1 model_lower)) with
    | some q => (q.2, true)
    | none => ((alookup pricing "_default").getD ⟨3/20, 3/5⟩, false)

/-- calculate_cost (collector/main.py lines 202-204). -/
def calculate_cost (input_tokens output_tokens : Int) (p : Price) : Rat :=
  (input_tokens : Rat) / 1000000 * p.input + (output_tokens : Rat) / 1000000 * p.output

/- ============================================================
   Usage document (the JSON returned by /v0/management/usage)
   ============================================================ -/

/-- Token counters of one UsageDetail entry. -/
structure Tokens where
  input_tokens : Int := 0
  output_tokens : Int := 0
  reasoning_tokens : Int := 0
  cached_tokens : Int := 0
  total_tokens : Int := 0
deriving DecidableEq, Repr

/-- One entry of a model's details array: one request handled by the proxy. -/
structure UsageDetail where
  auth_index : String := ""
  source : String := ""
  failed : Bool := false
  tokens : Tokens := {}
deriving DecidableEq, Repr

/-- Per-model node of the usage document. -/
structure ModelData where
  total_requests : Int := 0
  total_tokens : Int := 0
  details : List UsageDetail := []
deriving DecidableEq, Repr

/-- Per-API node of the usage document: its models mapping. -/
structure ApiData where
  models : List (String × ModelData) := []
deriving DecidableEq, Repr

/-- The usage object of the document fetched from the proxy
(data['usage'] in the source). -/
structure Usage where
  total_requests : Int := 0
  success_count : Int := 0
  failure_count : Int := 0
  total_tokens : Int := 0
  apis : List (String × ApiData) := []
deriving DecidableEq, Repr

/- ============================================================
   Persisted rows (usage_snapshots, model_usage, daily_stats)
   ============================================================ -/

/-- A usage_snapshots row (raw_data omitted; it is never read back). -/
structure Snapshot where
  total_requests : Int := 0
  success_count : Int := 0
  failure_count : Int := 0
  total_tokens : Int := 0
  cumulative_cost_usd : Rat := 0
deriving DecidableEq, Repr

/-- A model_usage row. -/
structure ModelRecord where
  model_name : String := ""
  api_endpoint : String := ""
  request_count : Int := 0
  input_tokens : Int := 0
  output_tokens : Int := 0
  total_tokens : Int := 0
  estimated_cost_usd : Rat := 0
deriving DecidableEq, Repr

/-- Per-model entry of a DailyStat breakdown. -/
structure MBreak where
  requests : Int := 0
  tokens : Int := 0
  cost : Rat := 0
  input_tokens : Int := 0
  output_tokens : Int := 0
deriving DecidableEq, Repr

/-- Per-model entry nested inside an endpoint breakdown. -/
structure MSmall where
  requests : Int := 0
  tokens : Int := 0
  cost : Rat := 0
deriving DecidableEq, Repr

/-- Per-endpoint entry of a DailyStat breakdown. -/
structure EBreak where
  requests : Int := 0
  tokens : Int := 0
  cost : Rat := 0
  models : List (String × MSmall) := []
deriving DecidableEq, Repr

/-- The breakdown JSONB column of a daily_stats row. -/
structure Breakdown where
  models : List (String × MBreak) := []
  endpoints : List (String × EBreak) := []
deriving DecidableEq, Repr

/-- A daily_stats row (for the single current stat_date). -/
structure DailyStat where
  total_requests : Int := 0
  success_count : Int := 0
  failure_count : Int := 0
  total_tokens : Int := 0
  estimated_cost_usd : Rat := 0
  breakdown : Breakdown := {}
deriving DecidableEq, Repr

/-- Database state touched by one tick of store_usage_data: snapshots
newest first, each with its model_usage rows, and today's daily_stats
row when present. -/
structure DB where
  snapshots : List (Snapshot × List ModelRecord) := []
  daily : Option DailyStat := none
deriving DecidableEq, Repr

/- ============================================================
   DeltaEngine (store_usage_data, collector/main.py lines 206-556)
   ============================================================ -/

/-- Model-usage rows built for a new snapshot (collector/main.py
lines 241-259): one row per (endpoint, model), with detail token sums
and the imputed cost. -/
def buildModelRecords (pricing : List (String × Price)) (u : Usage) : List ModelRecord :=
  (u.apis.map (fun ep =>
    ep.2.models.map (fun mp =>
      let input_tok := (mp.2.details.map (fun d => d.tokens.input_tokens)).sum
      let output_tok := (mp.2.details.map (fun d => d.tokens.output_tokens)).sum
      let price := (find_pricing_for_model mp.1 pricing).1
      { model_name := mp.1
        api_endpoint := ep.1
        request_count := mp.2.total_requests
        input_tokens := input_tok
        output_tokens := output_tok
        total_tokens := mp.2.total_tokens
        estimated_cost_usd := calculate_cost input_tok output_tok price : ModelRecord }))).flatten

/-- Global increments of one tick. -/
structure Deltas where
  inc_requests : Int := 0
  inc_success : Int := 0
  inc_failure : Int := 0
  inc_tokens : Int := 0
  inc_cost : Rat := 0
deriving DecidableEq, Repr

/-- Global incremental deltas when a previous snapshot exists
(collector/main.py lines 285-304): counter differences, replaced by
the current cumulative values (and inc_cost by total_cost) when a
negative request or token delta reveals a proxy restart. -/
def globalIncrements (prev : Snapshot) (current_requests current_success current_failure
    current_tokens : Int) (cumulative_cost total_cost : Rat) : Deltas :=
  let inc_requests := current_requests - prev.total_requests
  let inc_success := current_success - prev.success_count
  let inc_failure := current_failure - prev.failure_count
  let inc_tokens := current_tokens - prev.total_tokens
  let inc_cost := cumulative_cost - prev.cumulative_cost_usd
  if inc_requests < 0 ∨ inc_tokens < 0 then
    { inc_requests := current_requests
      inc_success := current_success
      inc_failure := current_failure
      inc_tokens := current_tokens
      inc_cost := total_cost }
  else
    { inc_requests := inc_requests
      inc_success := inc_success
      inc_failure := inc_failure
      inc_tokens := inc_tokens
      inc_cost := inc_cost }

/-- Association-list lookup keyed by a (model, endpoint) pair. -/
def klookup {α : Type} : List ((String × String) × α) → String × String → Option α
  | [], _ => none
  | (k', v) :: rest, k => if k' = k then some v else klookup rest k

/-- Map from (model_name, endpoint) to row, as built at
collector/main.py lines 330-341 (a missing endpoint becomes
"unknown"; the row's endpoint is never empty in practice). -/
def buildUsageMap (rows : List ModelRecord) : List ((String × String) × ModelRecord) :=
  rows.map (fun r =>
    ((r.model_name, if r.api_endpoint = "" then "unknown" else r.api_endpoint), r))

/-- Add one surviving per-key delta into the breakdown-deltas object
(collector/main.py lines 397-424). -/
def addDeltaToBreakdown (bd : Breakdown) (model_name endpoint : String)
    (d_req d_tok : Int) (d_cost : Rat) (d_in d_out : Int) : Breakdown :=
  { models := adjustOrInit bd.models model_name {}
      (fun m => { m with
        requests := m.requests + d_req
        tokens := m.tokens + d_tok
        cost := m.cost + d_cost
        input_tokens := m.input_tokens + d_in
        output_tokens := m.output_tokens + d_out })
    endpoints := adjustOrInit bd.endpoints endpoint {}
      (fun e => { e with
        requests := e.requests + d_req
        tokens := e.tokens + d_tok
        cost := e.cost + d_cost
        models := adjustOrInit e.models model_name {}
          (fun m => { m with
            requests := m.requests + d_req
            tokens := m.tokens + d_tok
            cost := m.cost + d_cost }) }) }

/-- State threaded through the per-key delta loop: the global
increments being adjusted and the breakdown deltas being built. -/
structure LoopState where
  inc : Deltas
  bd : Breakdown
deriving DecidableEq, Repr

/-- Per-(model, endpoint) delta of one key of the loop at
collector/main.py lines 345-374: the counter differences against the
previous snapshot's row, with the current cumulative values adopted on
a negative request or token difference (per-key restart detection),
together with the current cumulative cost of the key. -/
structure KeyDelta where
  d_req : Int
  d_tok : Int
  d_cost : Rat
  d_in : Int
  d_out : Int
  c_cost : Rat
deriving DecidableEq, Repr

/-- The per-key delta computation of collector/main.py lines 345-374. -/
def keyDelta (prevMap currMap : List ((String × String) × ModelRecord))
    (key : String × String) : KeyDelta :=
  let prev := klookup prevMap key
  let curr := klookup currMap key
  let p_req := (prev.map (fun r => r.request_count)).getD 0
  let p_tok := (prev.map (fun r => r.total_tokens)).getD 0
  let p_cost := (prev.map (fun r => r.estimated_cost_usd)).getD 0
  let p_in := (prev.map (fun r => r.input_tokens)).getD 0
  let p_out := (prev.map (fun r => r.output_tokens)).getD 0
  let c_req := (curr.map (fun r => r.request_count)).getD 0
  let c_tok := (curr.map (fun r => r.total_tokens)).getD 0
  let c_cost := (curr.map (fun r => r.estimated_cost_usd)).getD 0
  let c_in := (curr.map (fun r => r.input_tokens)).getD 0
  let c_out := (curr.map (fun r => r.output_tokens)).getD 0
  let d0_req := c_req - p_req
  let d0_tok := c_tok - p_tok
  let restart := d0_req < 0 ∨ d0_tok < 0
  { d_req := if restart then c_req else d0_req
    d_tok := if restart then c_tok else d0_tok
    d_cost := if restart then c_cost else c_cost - p_cost
    d_in := if restart then c_in else c_in - p_in
    d_out := if restart then c_out else c_out - p_out
    c_cost := c_cost }

/-- Per-(model, endpoint) delta step of the loop at collector/main.py
lines 345-424: compute the delta against the previous snapshot's row,
drop false-start keys (subtracting them from the global increments
while leaving success and failure untouched), and add every other
positive delta into the breakdown deltas. -/
def processKey (prevMap currMap : List ((String × String) × ModelRecord))
    (st : LoopState) (key : String × String) : LoopState :=
  let kd := keyDelta prevMap currMap key
  if kd.d_cost > 10 ∧ ratAbs (kd.d_cost - kd.c_cost) < 1/10 then
    { st with inc := { st.inc with
        inc_requests := st.inc.inc_requests - kd.d_req
        inc_tokens := st.inc.inc_tokens - kd.d_tok
        inc_cost := st.inc.inc_cost - kd.d_cost } }
  else if kd.d_req > 0 ∨ kd.d_cost > 0 then
    { st with bd := addDeltaToBreakdown st.bd key.1 key.2 kd.d_req kd.d_tok kd.d_cost kd.d_in kd.d_out }
  else
    st

/-- First-snapshot branch (collector/main.py lines 427-458): every new
model row is added to the breakdown deltas unconditionally. -/
def addRecordToBreakdown (bd : Breakdown) (r : ModelRecord) : Breakdown :=
  addDeltaToBreakdown bd r.model_name
    (if r.api_endpoint = "" then "unknown" else r.api_endpoint)
    r.request_count r.total_tokens r.estimated_cost_usd r.input_tokens r.output_tokens

/-- Sum of the requests over a breakdown's models mapping. -/
def bdRequests (bd : Breakdown) : Int :=
  (bd.models.map (fun m => m.2.requests)).sum

/-- Sum of the tokens over a breakdown's models mapping. -/
def bdTokens (bd : Breakdown) : Int :=
  (bd.models.map (fun m => m.2.tokens)).sum

/-- Sum of the cost over a breakdown's models mapping. -/
def bdCost (bd : Breakdown) : Rat :=
  (bd.models.map (fun m => m.2.cost)).sum

/-- Python int() conversion of a nonnegative-or-negative rational:
truncation toward zero. -/
def intTrunc (q : Rat) : Int :=
  if 0 ≤ q then q.floor else q.ceil

/-- Consistency check and global override (collector/main.py lines
461-484): recompute safe increments from the breakdown deltas and,
when a previous snapshot exists, scale success/failure by the clamped
ratio when it falls below 0.99 and replace the global increments by
the safe sums. -/
def consistencyOverride (hasPrev : Bool) (inc : Deltas) (bd : Breakdown) : Deltas :=
  let safe_inc_cost := bdCost bd
  let safe_inc_tokens := bdTokens bd
  let safe_inc_requests := bdRequests bd
  if hasPrev then
    let inc1 :=
      if inc.inc_requests > 0 then
        let ratio := (safe_inc_requests : Rat) / (inc.inc_requests : Rat)
        let ratio := ratMax 0 (ratMin 1 ratio)
        if ratio < 99/100 then
          { inc with
            inc_success := intTrunc ((inc.inc_success : Rat) * ratio)
            inc_failure := intTrunc ((inc.inc_failure : Rat) * ratio) }
        else inc
      else inc
    { inc1 with
      inc_cost := safe_inc_cost
      inc_tokens := safe_inc_tokens
      inc_requests := safe_inc_requests }
  else
    inc

/-- Merge the breakdown deltas into the day's existing breakdown
(collector/main.py lines 486-519). -/
def mergeBreakdown (existing delta : Breakdown) : Breakdown :=
  let models := delta.models.foldl
    (fun acc md => adjustOrInit acc md.1 {}
      (fun m => { m with
        requests := m.requests + md.2.requests
        tokens := m.tokens + md.2.tokens
        cost := m.cost + md.2.cost
        input_tokens := m.input_tokens + md.2.input_tokens
        output_tokens := m.output_tokens + md.2.output_tokens }))
    existing.models
  let endpoints := delta.endpoints.foldl
    (fun acc ed => adjustOrInit acc ed.1 {}
      (fun e =>
        let ms := ed.2.models.foldl
          (fun macc md => adjustOrInit macc md.1 {}
            (fun m => { m with
              requests := m.requests + md.2.requests
              tokens := m.tokens + md.2.tokens
              cost := m.cost + md.2.cost }))
          e.models
        { e with
          requests := e.requests + ed.2.requests
          tokens := e.tokens + ed.2.tokens
          cost := e.cost + ed.2.cost
          models := ms }))
    existing.endpoints
  { models := models, endpoints := endpoints }

/-- Final assembly of the upserted daily_stats row (collector/main.py
lines 522-548): self-healed totals recomputed from the merged
breakdown, falling back to existing-plus-increment when the
corresponding breakdown sum is not positive; success and failure
always accumulate by increment. -/
def finalizeDaily (existing : DailyStat) (inc : Deltas) (merged : Breakdown) : DailyStat :=
  let total_cost_from_breakdown := bdCost merged
  let total_tokens_from_breakdown := bdTokens merged
  let total_requests_from_breakdown := bdRequests merged
  { total_requests :=
      if total_requests_from_breakdown > 0 then total_requests_from_breakdown
      else existing.total_requests + inc.inc_requests
    success_count := existing.success_count + inc.inc_success
    failure_count := existing.failure_count + inc.inc_failure
    total_tokens :=
      if total_tokens_from_breakdown > 0 then total_tokens_from_breakdown
      else existing.total_tokens + inc.inc_tokens
    estimated_cost_usd :=
      if total_cost_from_breakdown > 0 then total_cost_from_breakdown
      else existing.estimated_cost_usd + inc.inc_cost
    breakdown := merged }

/-- Keys iterated by the per-key loop: the union of the previous and
current map keys (a Python set; modelled in left-then-new order — all
properties proved below are insensitive to this order). -/
def unionKeys (prevMap currMap : List ((String × String) × ModelRecord)) :
    List (String × String) :=
  prevMap.map Prod.fst ++
    (currMap.map Prod.fst).filter (fun k => ¬ (prevMap.map Prod.fst).contains k)

/-- store_usage_data (collector/main.py lines 206-556): one tick of
the DeltaEngine against the database state, given the merged pricing
table and the usage object of the fetched document. -/
def store_usage_data (pricing : List (String × Price)) (db : DB) (u : Usage) : DB :=
  let current_requests := u.total_requests
  let current_success := u.success_count
  let current_failure := u.failure_count
  let current_tokens := u.total_tokens
  let model_records := buildModelRecords pricing u
  let total_cost := (model_records.map (fun r => r.estimated_cost_usd)).sum
  let last_cost_total := ((db.snapshots.head?.map (fun s => s.1.cumulative_cost_usd)).getD 0)
  let cumulative_cost := last_cost_total + total_cost
  let newSnap : Snapshot :=
    { total_requests := current_requests
      success_count := current_success
      failure_count := current_failure
      total_tokens := current_tokens
      cumulative_cost_usd := cumulative_cost }
  let prev := db.snapshots.head?
  let inc : Deltas :=
    match prev with
    | some p => globalIncrements p.1 current_requests current_success current_failure
        current_tokens cumulative_cost total_cost
    | none =>
      { inc_requests := current_requests
        inc_success := current_success
        inc_failure := current_failure
        inc_tokens := current_tokens
        inc_cost := total_cost }
  let existing := db.daily.getD {}
  let st : LoopState :=
    match prev with
    | some p =>
      let prevMap := buildUsageMap p.2
      let currMap := buildUsageMap model_records
      (unionKeys prevMap currMap).foldl (processKey prevMap currMap) ⟨inc, {}⟩
    | none =>
      ⟨inc, model_records.foldl addRecordToBreakdown {}⟩
  let incF := consistencyOverride prev.isSome st.inc st.bd
  let merged := mergeBreakdown existing.breakdown st.bd
  { snapshots := (newSnap, model_records) :: db.snapshots
    daily := some (finalizeDaily existing incF merged) }

/- ============================================================
   RateLimitEngine (collector/rate_limiter.py)
   ============================================================ -/

/-- A model_usage row as read by the rate limiter: its creation time
(integer seconds) and the counters the queries project. -/
structure Row where
  created_at : Int := 0
  model_name : String := ""
  total_tokens : Int := 0
  request_count : Int := 0
deriving DecidableEq, Repr

/-- SQL "model_name ILIKE %pattern%": case-insensitive containment
(SQL wildcard characters inside the pattern are not modelled). -/
def ilikeMatch (pattern name : String) : Bool :=
  strContains (strLower name) (strLower pattern)

/-- Maximum of a list of timestamps. -/
def maxTimes (l : List Int) : Option Int :=
  l.foldl (fun acc t =>
    match acc with
    | none => some t
    | some m => some (intMax m t)) none

/-- Minimum of a list of timestamps. -/
def minTimes (l : List Int) : Option Int :=
  l.foldl (fun acc t =>
    match acc with
    | none => some t
    | some m => some (intMin m t)) none

/-- Timestamp of the most recent matching row (order by created_at
descending, limit 1); only the timestamp is read by the source. -/
def latestTime (rows : List Row) (pattern : String) : Option Int :=
  maxTimes ((rows.filter (fun r => ilikeMatch pattern r.model_name)).map (fun r => r.created_at))

/-- Timestamp of the earliest matching row at or after the window start. -/
def firstInnerTime (rows : List Row) (pattern : String) (since : Int) : Option Int :=
  minTimes ((rows.filter (fun r => ilikeMatch pattern r.model_name && since ≤ r.created_at)).map
    (fun r => r.created_at))

/-- Timestamp of the latest matching row strictly before the window start. -/
def baselineTime (rows : List Row) (pattern : String) (since : Int) : Option Int :=
  maxTimes ((rows.filter (fun r => ilikeMatch pattern r.model_name && r.created_at < since)).map
    (fun r => r.created_at))

/-- Aggregated per-model counters of one snapshot time. -/
structure MU where
  total_tokens : Int := 0
  request_count : Int := 0
deriving DecidableEq, Repr

/-- RateLimiter._build_snapshot_map (collector/rate_limiter.py lines
240-254): aggregate the matching rows of one snapshot time by model. -/
def build_snapshot_map (rows : List Row) (pattern : String) (snapshot_time : Int) :
    List (String × MU) :=
  (rows.filter (fun r => ilikeMatch pattern r.model_name && r.created_at == snapshot_time)).foldl
    (fun acc r => adjustOrInit acc r.model_name {}
      (fun m => { total_tokens := m.total_tokens + r.total_tokens
                  request_count := m.request_count + r.request_count }))
    []

/-- Python round(): round half to even. -/
def pyRound (q : Rat) : Int :=
  let f := q.floor
  let frac := q - f
  if frac < 1/2 then f
  else if 1/2 < frac then f + 1
  else if f % 2 = 0 then f else f + 1

/-- Key-union iteration order of _interpolate_snapshot_map (a Python
set union; modelled left-then-new, order-insensitive for the results
proved below). -/
def interpKeys (bm im : List (String × MU)) : List String :=
  bm.map Prod.fst ++ (im.map Prod.fst).filter (fun k => ¬ (bm.map Prod.fst).contains k)

/-- RateLimiter._interpolate_snapshot_map (collector/rate_limiter.py
lines 256-277): per-model linear interpolation between two snapshot
maps, rounded to integers; a model absent from the inner map keeps
its baseline record. -/
def interpolate_snapshot_map (bm im : List (String × MU)) (ratio : Rat) :
    List (String × MU) :=
  (interpKeys bm im).map (fun name =>
    let baseline_rec := (alookup bm name).getD {}
    let inner_rec := (alookup im name).getD baseline_rec
    (name,
      { total_tokens := pyRound ((baseline_rec.total_tokens : Rat) +
          ratio * ((inner_rec.total_tokens : Rat) - (baseline_rec.total_tokens : Rat)))
        request_count := pyRound ((baseline_rec.request_count : Rat) +
          ratio * ((inner_rec.request_count : Rat) - (baseline_rec.request_count : Rat))) }))

/-- Usage totals returned by _calculate_usage. -/
structure UsageOut where
  total_tokens : Int := 0
  request_count : Int := 0
deriving DecidableEq, Repr

/-- RateLimiter._calculate_delta_from_snapshots (collector/
rate_limiter.py lines 279-314): per-model clamped differences between
the latest snapshot map and the baseline map (or an override),
summed over the models of the latest map. -/
def calculate_delta_from_snapshots (rows : List Row) (pattern : String)
    (latest_time baseline_time : Int) (baseline_override : Option (List (String × MU))) :
    UsageOut :=
  let current_map := build_snapshot_map rows pattern latest_time
  let baseline_map :=
    match baseline_override with
    | some m => m
    | none => build_snapshot_map rows pattern baseline_time
  { total_tokens := (current_map.map (fun c =>
      intMax 0 (c.2.total_tokens - ((alookup baseline_map c.1).getD {}).total_tokens))).sum
    request_count := (current_map.map (fun c =>
      intMax 0 (c.2.request_count - ((alookup baseline_map c.1).getD {}).request_count))).sum }

/-- RateLimiter._calculate_usage (collector/rate_limiter.py lines
127-238): window usage with gap-crossing baseline interpolation. -/
def calculate_usage (rows : List Row) (pattern : String) (since : Int) : UsageOut :=
  match latestTime rows pattern with
  | none => {}
  | some latest =>
    if latest < since then {}
    else
      match baselineTime rows pattern since with
      | none =>
        match firstInnerTime rows pattern since with
        | none => {}
        | some fi => calculate_delta_from_snapshots rows pattern latest fi none
      | some b =>
        match firstInnerTime rows pattern since with
        | some fi =>
          let gap_seconds := fi - b
          if gap_seconds > 1800 then
            let ratio_seconds := since - b
            let window_span := if gap_seconds > 0 then gap_seconds else 1
            let ratio := ratMax 0 (ratMin 1 ((ratio_seconds : Rat) / (window_span : Rat)))
            let baseline_map := build_snapshot_map rows pattern b
            let first_inner_map := build_snapshot_map rows pattern fi
            let interpolated := interpolate_snapshot_map baseline_map first_inner_map ratio
            calculate_delta_from_snapshots rows pattern latest b (some interpolated)
          else
            calculate_delta_from_snapshots rows pattern latest b none
        | none => calculate_delta_from_snapshots rows pattern latest b none

/-- A rate_limit_configs row; optional fields may be null. The anchor
is the parsed timestamp (none models both an absent and an
unparseable value, which the source treats alike). -/
structure RateLimitConfig where
  id : Option Int := none
  model_pattern : Option String := none
  window_minutes : Option Int := none
  reset_strategy : Option String := none
  token_limit : Option Int := none
  request_limit : Option Int := none
  reset_anchor_timestamp : Option Int := none
deriving DecidableEq, Repr

/-- Python truthiness of an optional integer field. -/
def truthyOptInt : Option Int → Bool
  | none => false
  | some n => n != 0

/-- Python truthiness of an optional string field. -/
def truthyOptStr : Option String → Bool
  | none => false
  | some s => !s.isEmpty

/-- Natural window start and next reset per strategy
(collector/rate_limiter.py lines 74-89), on timestamps measured in
seconds from a Monday 00:00 in the app timezone; none for an
unsupported strategy. -/
def naturalWindowStart (now : Int) (strategy : String) (window_minutes : Int) :
    Option (Int × Int) :=
  if strategy = "daily" then
    let ws := now - now % 86400
    some (ws, ws + 86400)
  else if strategy = "weekly" then
    let ws := now - now % 604800
    some (ws, ws + 604800)
  else if strategy = "rolling" then
    some (now - window_minutes * 60, now + 60)
  else
    none

/-- Manual reset-anchor adjustment (collector/rate_limiter.py lines
91-108): an anchor strictly newer than the natural start overrides
it; otherwise the natural start stands. -/
def effectiveWindowStart (calculated : Int) (anchor : Option Int) : Int :=
  match anchor with
  | none => calculated
  | some a => if a > calculated then a else calculated

/-- A rate_limit_status row. -/
structure StatusRow where
  config_id : Int := 0
  last_updated : Int := 0
  window_start : Int := 0
  used_tokens : Int := 0
  used_requests : Int := 0
  status_label : String := ""
  percentage : Int := 0
  remaining_tokens : Int := 0
  remaining_requests : Int := 0
  next_reset : Int := 0
deriving DecidableEq, Repr

/-- Digit grouping of a reversed digit list: insert a comma after
every three digits, implementing the Python format spec ",". -/
def commaRev : List Char → List Char
  | a :: b :: c :: d :: rest => a :: b :: c :: ',' :: commaRev (d :: rest)
  | l => l

/-- Python f-string integer formatting with thousands separators. -/
def formatThousands (n : Int) : String :=
  let digits := (toString n.natAbs).data
  let grouped := (commaRev digits.reverse).reverse
  (if n < 0 then "-" else "") ++ String.mk grouped

/-- RateLimiter._update_status (collector/rate_limiter.py lines
316-362): build the status row for one config. -/
def update_status (now config_id used_tokens used_requests window_start next_reset : Int)
    (token_limit request_limit : Option Int) : StatusRow :=
  let base : StatusRow :=
    { config_id := config_id
      last_updated := now
      window_start := window_start
      used_tokens := used_tokens
      used_requests := used_requests
      next_reset := next_reset }
  let st :=
    match token_limit with
    | some tl =>
      if tl > 0 then
        let rem_tokens := intMax 0 (tl - used_tokens)
        let ut := formatThousands used_tokens
        let lt := formatThousands tl
        { base with
          remaining_tokens := rem_tokens
          remaining_requests := 0
          percentage := intTrunc ((rem_tokens : Rat) / (tl : Rat) * 100)
          status_label := s!"{ut}/{lt} Tokens" }
      else
        fallbackRequestStatus base used_tokens used_requests request_limit
    | none => fallbackRequestStatus base used_tokens used_requests request_limit
  { st with percentage := intMax 0 (intMin 100 st.percentage) }
where
  /-- Request-limit fallback and informational label branches of
  _update_status. -/
  fallbackRequestStatus (base : StatusRow) (used_tokens used_requests : Int)
      (request_limit : Option Int) : StatusRow :=
    match request_limit with
    | some rl =>
      if rl > 0 then
        let rem_requests := intMax 0 (rl - used_requests)
        let ur := formatThousands used_requests
        let lr := formatThousands rl
        { base with
          remaining_tokens := 0
          remaining_requests := rem_requests
          percentage := intTrunc ((rem_requests : Rat) / (rl : Rat) * 100)
          status_label := s!"{ur}/{lr} Requests" }
      else
        informationalStatus base used_tokens used_requests
    | none => informationalStatus base used_tokens used_requests
  /-- Informational branch of _update_status when no limit applies. -/
  informationalStatus (base : StatusRow) (used_tokens used_requests : Int) : StatusRow :=
    let ut := formatThousands used_tokens
    let ur := formatThousands used_requests
    { base with
      remaining_tokens := 0
      remaining_requests := 0
      percentage := 100
      status_label := s!"Used: {ut}T / {ur}R" }

/-- RateLimiter._process_config (collector/rate_limiter.py lines
54-125) as a pure row computation: none when the config is skipped
(incomplete fields or unsupported strategy). -/
def statusRowFor (now : Int) (rows : List Row) (c : RateLimitConfig) : Option StatusRow :=
  if truthyOptInt c.id && truthyOptStr c.model_pattern &&
      truthyOptInt c.window_minutes && truthyOptStr c.reset_strategy then
    match naturalWindowStart now (c.reset_strategy.getD "") (c.window_minutes.getD 0) with
    | none => none
    | some nw =>
      let window_start := effectiveWindowStart nw.1 c.reset_anchor_timestamp
      let usage := calculate_usage rows (c.model_pattern.getD "") window_start
      some (update_status now (c.id.getD 0) usage.total_tokens usage.request_count
        window_start nw.2 c.token_limit c.request_limit)
  else
    none

/-- Supabase upsert on rate_limit_status keyed by config_id: replace
the existing row or append a new one. -/
def upsertStatus (table : List StatusRow) (r : StatusRow) : List StatusRow :=
  if table.any (fun s => s.config_id == r.config_id) then
    table.map (fun s => if s.config_id = r.config_id then r else s)
  else
    table ++ [r]

/-- RateLimiter.sync_limits (collector/rate_limiter.py lines 21-43):
process every config in order, upserting the computed status rows. -/
def sync_limits (now : Int) (rows : List Row) (configs : List RateLimitConfig)
    (table : List StatusRow) : List StatusRow :=
  configs.foldl (fun t c =>
    match statusRowFor now rows c with
    | none => t
    | some r => upsertStatus t r) table

/-- Status-row lookup by config id (first match). -/
def lookupStatus : List StatusRow → Int → Option StatusRow
  | [], _ => none
  | s :: rest, cid => if s.config_id = cid then some s else lookupStatus rest cid

/- ============================================================
   CredentialAggregator (collector/credential_stats_sync.py)
   ============================================================ -/

/-- Credential info resolved for a details entry. -/
structure CredInfo where
  provider : String := ""
  email : String := ""
  name : String := ""
  label : String := ""
  status : String := "unknown"
  account_type : String := ""
  auth_index : String := ""
deriving DecidableEq, Repr

/-- One record of the auth-files catalog. -/
structure AuthFile where
  provider : String := ""
  email : String := ""
  name : String := ""
  label : String := ""
  status : String := "unknown"
  account_type : String := ""
  auth_index : String := ""
deriving DecidableEq, Repr

/-- Python dict assignment d[k] = v: replace the first binding in
place or append. -/
def dictSet {α : Type} (l : List (String × α)) (k : String) (v : α) : List (String × α) :=
  adjustOrInit l k v (fun _ => v)

/-- CredentialStatsSync.build_auth_index_map (collector/
credential_stats_sync.py lines 63-87): index the catalog by
auth_index and by name, skipping falsy keys. -/
def build_auth_index_map (auth_files : List AuthFile) :
    List (String × CredInfo) × List (String × CredInfo) :=
  auth_files.foldl (fun acc f =>
    let info : CredInfo :=
      { provider := f.provider, email := f.email, name := f.name, label := f.label
        status := f.status, account_type := f.account_type, auth_index := f.auth_index }
    let m1 := if f.auth_index ≠ "" then dictSet acc.1 f.auth_index info else acc.1
    let m2 := if f.name ≠ "" then dictSet acc.2 f.name info else acc.2
    (m1, m2)) ([], [])

/-- Python str.split(sep, 1): split on the first separator only. -/
def splitFirstDash (s : String) : List String :=
  match s.splitOn "-" with
  | [] => [s]
  | [x] => [x]
  | x :: rest => [x, "-".intercalate rest]

/-- CredentialStatsSync.resolve_credential (collector/
credential_stats_sync.py lines 89-133): catalog lookups by
auth_index then source, then inference heuristics on the source
string. -/
def resolve_credential (auth_index source : String)
    (by_auth_index by_name : List (String × CredInfo)) : CredInfo :=
  match (if auth_index ≠ "" then alookup by_auth_index auth_index else none) with
  | some info => info
  | none =>
    match (if source ≠ "" then alookup by_name source else none) with
    | some info => info
    | none =>
      let email0 := if source ≠ "" then source else if auth_index ≠ "" then auth_index else "unknown"
      let pe : String × String :=
        if source ≠ "" then
          let s := strLower source
          if s.startsWith "aizasy" || strContains s "googleapis" then
            ("gemini-api-key", source.take 20 ++ "...")
          else if s.endsWith ".json" then
            match splitFirstDash (s.replace ".json" "") with
            | [p, e] => (p, e.replace "_" ".")
            | _ => ("unknown", email0)
          else if source.contains '@' then
            ("oauth", source)
          else if source.contains '=' || source.length > 40 then
            ("api-key", source.take 20 ++ "...")
          else ("unknown", email0)
        else ("unknown", email0)
      { provider := pe.1, email := pe.2, name := source, label := pe.2
        status := "active", account_type := "inferred", auth_index := auth_index }

/-- Per-model sub-counters of a credential aggregation. -/
structure ModelCounters where
  requests : Int := 0
  success : Int := 0
  failure : Int := 0
  input_tokens : Int := 0
  output_tokens : Int := 0
  reasoning_tokens : Int := 0
  cached_tokens : Int := 0
  total_tokens : Int := 0
deriving DecidableEq, Repr

/-- Per-credential aggregation state. -/
structure CredAgg where
  total_requests : Int := 0
  success_count : Int := 0
  failure_count : Int := 0
  input_tokens : Int := 0
  output_tokens : Int := 0
  reasoning_tokens : Int := 0
  cached_tokens : Int := 0
  total_tokens : Int := 0
  models : List (String × ModelCounters) := []
  api_keys : List String := []
  info : Option CredInfo := none
deriving DecidableEq, Repr

/-- Per-model sub-counters of an API-key aggregation. -/
structure AkModel where
  requests : Int := 0
  tokens : Int := 0
  success : Int := 0
  failure : Int := 0
deriving DecidableEq, Repr

/-- Per-API-key aggregation state. -/
structure ApiKeyAgg where
  total_requests : Int := 0
  total_tokens : Int := 0
  success_count : Int := 0
  failure_count : Int := 0
  input_tokens : Int := 0
  output_tokens : Int := 0
  models : List (String × AkModel) := []
  credentials_used : List String := []
deriving DecidableEq, Repr

/-- Python set.add on a set modelled as a duplicate-free list. -/
def setAdd (l : List String) (s : String) : List String :=
  if l.contains s then l else l ++ [s]

/-- Aggregation state: the credential map and the API-key map. -/
structure AggState where
  creds : List (String × CredAgg)
  aks : List (String × ApiKeyAgg)
deriving Repr

/-- Inner body of the details loop of aggregate_stats (collector/
credential_stats_sync.py lines 178-240): attribute one request to its
credential and its API key. -/
def detailStep (by_auth_index by_name : List (String × CredInfo))
    (api_key_name model_name : String) (st : AggState) (d : UsageDetail) : AggState :=
  let cred_key :=
    if d.auth_index ≠ "" then d.auth_index
    else if d.source ≠ "" then d.source
    else "unknown"
  let in_tok := d.tokens.input_tokens
  let out_tok := d.tokens.output_tokens
  let reason_tok := d.tokens.reasoning_tokens
  let cache_tok := d.tokens.cached_tokens
  let tot_tok := d.tokens.total_tokens
  let creds := adjustOrInit st.creds cred_key {} (fun cred =>
    let cred :=
      if cred.info.isNone then
        { cred with info := some (resolve_credential d.auth_index d.source by_auth_index by_name) }
      else cred
    { cred with
      total_requests := cred.total_requests + 1
      failure_count := cred.failure_count + (if d.failed then 1 else 0)
      success_count := cred.success_count + (if d.failed then 0 else 1)
      input_tokens := cred.input_tokens + in_tok
      output_tokens := cred.output_tokens + out_tok
      reasoning_tokens := cred.reasoning_tokens + reason_tok
      cached_tokens := cred.cached_tokens + cache_tok
      total_tokens := cred.total_tokens + tot_tok
      api_keys := setAdd cred.api_keys api_key_name
      models := adjustOrInit cred.models model_name {} (fun m =>
        { requests := m.requests + 1
          success := m.success + (if d.failed then 0 else 1)
          failure := m.failure + (if d.failed then 1 else 0)
          input_tokens := m.input_tokens + in_tok
          output_tokens := m.output_tokens + out_tok
          reasoning_tokens := m.reasoning_tokens + reason_tok
          cached_tokens := m.cached_tokens + cache_tok
          total_tokens := m.total_tokens + tot_tok }) })
  let aks := adjustOrInit st.aks api_key_name {} (fun ak =>
    { ak with
      total_requests := ak.total_requests + 1
      total_tokens := ak.total_tokens + tot_tok
      input_tokens := ak.input_tokens + in_tok
      output_tokens := ak.output_tokens + out_tok
      failure_count := ak.failure_count + (if d.failed then 1 else 0)
      success_count := ak.success_count + (if d.failed then 0 else 1)
      credentials_used := setAdd ak.credentials_used cred_key
      models := adjustOrInit ak.models model_name {} (fun m =>
        { requests := m.requests + 1
          tokens := m.tokens + tot_tok
          success := m.success + (if d.failed then 0 else 1)
          failure := m.failure + (if d.failed then 1 else 0) }) })
  ⟨creds, aks⟩

/-- The nested aggregation loops of aggregate_stats (collector/
credential_stats_sync.py lines 170-240). Accessing the defaultdict at
the top of the API loop creates the API-key entry even when no
details follow. -/
def aggLoop (by_auth_index by_name : List (String × CredInfo))
    (apis : List (String × ApiData)) : AggState :=
  apis.foldl (fun st ap =>
    let st : AggState := ⟨st.creds, adjustOrInit st.aks ap.1 {} id⟩
    ap.2.models.foldl (fun st mp =>
      mp.2.details.foldl (detailStep by_auth_index by_name ap.1 mp.1) st) st)
    ⟨[], []⟩

/-- Python round(x, 1): one decimal digit, half to even. -/
def pyRound1 (q : Rat) : Rat :=
  (pyRound (q * 10) : Rat) / 10

/-- An emitted credential record. -/
structure CredStat where
  auth_index : String := ""
  source : String := ""
  provider : String := "unknown"
  email : String := ""
  label : String := ""
  status : String := "unknown"
  account_type : String := ""
  total_requests : Int := 0
  success_count : Int := 0
  failure_count : Int := 0
  success_rate : Rat := 0
  input_tokens : Int := 0
  output_tokens : Int := 0
  reasoning_tokens : Int := 0
  cached_tokens : Int := 0
  total_tokens : Int := 0
  models : List (String × ModelCounters) := []
  api_keys : List String := []
deriving DecidableEq, Repr

/-- An emitted API-key record. -/
structure ApiKeyStat where
  api_key_name : String := ""
  total_requests : Int := 0
  total_tokens : Int := 0
  success_count : Int := 0
  failure_count : Int := 0
  success_rate : Rat := 0
  input_tokens : Int := 0
  output_tokens : Int := 0
  models : List (String × AkModel) := []
  credentials_used : List String := []
deriving DecidableEq, Repr

/-- Serialisation of one credential aggregate (collector/
credential_stats_sync.py lines 243-272). -/
def emitCredStat (p : String × CredAgg) : CredStat :=
  let cred_key := p.1
  let cred := p.2
  let success_rate :=
    if cred.total_requests > 0 then
      pyRound1 ((cred.success_count : Rat) / (cred.total_requests : Rat) * 100)
    else 0
  match cred.info with
  | some info =>
    { auth_index := info.auth_index, source := info.name, provider := info.provider
      email := info.email, label := info.label, status := info.status
      account_type := info.account_type
      total_requests := cred.total_requests, success_count := cred.success_count
      failure_count := cred.failure_count, success_rate := success_rate
      input_tokens := cred.input_tokens, output_tokens := cred.output_tokens
      reasoning_tokens := cred.reasoning_tokens, cached_tokens := cred.cached_tokens
      total_tokens := cred.total_tokens, models := cred.models
      api_keys := stableSort (fun a b => a ≤ b) cred.api_keys }
  | none =>
    { auth_index := cred_key, source := "", provider := "unknown"
      email := "", label := "", status := "unknown", account_type := ""
      total_requests := cred.total_requests, success_count := cred.success_count
      failure_count := cred.failure_count, success_rate := success_rate
      input_tokens := cred.input_tokens, output_tokens := cred.output_tokens
      reasoning_tokens := cred.reasoning_tokens, cached_tokens := cred.cached_tokens
      total_tokens := cred.total_tokens, models := cred.models
      api_keys := stableSort (fun a b => a ≤ b) cred.api_keys }

/-- Serialisation of one API-key aggregate (collector/
credential_stats_sync.py lines 277-297). -/
def emitApiKeyStat (p : String × ApiKeyAgg) : ApiKeyStat :=
  let ak := p.2
  let success_rate :=
    if ak.total_requests > 0 then
      pyRound1 ((ak.success_count : Rat) / (ak.total_requests : Rat) * 100)
    else 0
  { api_key_name := p.1
    total_requests := ak.total_requests, total_tokens := ak.total_tokens
    success_count := ak.success_count, failure_count := ak.failure_count
    success_rate := success_rate
    input_tokens := ak.input_tokens, output_tokens := ak.output_tokens
    models := ak.models
    credentials_used := stableSort (fun a b => a ≤ b) ak.credentials_used }

/-- CredentialStatsSync.aggregate_stats (collector/
credential_stats_sync.py lines 135-301): aggregate and emit both
sequences, sorted by total_requests descending (stable). -/
def aggregate_stats (u : Usage) (auth_files : List AuthFile) :
    List CredStat × List ApiKeyStat :=
  let maps := build_auth_index_map auth_files
  let st := aggLoop maps.1 maps.2 u.apis
  (stableSort (fun a b => a.total_requests ≥ b.total_requests) (st.creds.map emitCredStat),
   stableSort (fun a b => a.total_requests ≥ b.total_requests) (st.aks.map emitApiKeyStat))

/- ============================================================
   Orchestration and error disposition (collector/main.py
   run_full_sync_once; credential_stats_sync.py sync)
   ============================================================ -/

/-- Outcome counters returned by CredentialStatsSync.sync. -/
structure SyncStats where
  credentials : Nat := 0
  api_keys : Nat := 0
  error : Bool := false
deriving DecidableEq, Repr

/-- The single credential_usage_summary row (id = 1). -/
structure SummaryRow where
  credentials : List CredStat := []
  api_keys : List ApiKeyStat := []
  total_credentials : Nat := 0
  total_api_keys : Nat := 0
deriving DecidableEq, Repr

/-- run_full_sync_once (collector/main.py lines 130-137): a failed
usage fetch (modelled as none) leaves the database untouched;
otherwise the snapshot tick runs. -/
def run_full_sync_once (pricing : List (String × Price)) (db : DB)
    (fetched : Option Usage) : DB :=
  match fetched with
  | some data => store_usage_data pricing db data
  | none => db

/-- CredentialStatsSync.sync (collector/credential_stats_sync.py lines
303-345): abort with an error flag when the usage fetch failed; fall
back to an empty catalog when only the auth-files fetch failed, then
aggregate and overwrite the summary row. -/
def credential_sync (usage_doc : Option Usage) (auth_files : Option (List AuthFile))
    (summary : Option SummaryRow) : SyncStats × Option SummaryRow :=
  match usage_doc with
  | none => ({ error := true }, summary)
  | some u =>
    let af := auth_files.getD []
    let stats := aggregate_stats u af
    ({ credentials := stats.1.length, api_keys := stats.2.length, error := false },
     some { credentials := stats.1, api_keys := stats.2
            total_credentials := stats.1.length, total_api_keys := stats.2.length })

/- ============================================================
   Concrete scenario inputs
   ============================================================ -/

/-- Pricing table for the restart scenario (the merged table with the
entry the scenario's model resolves to). -/
def scenarioPricing : List (String × Price) := [("gemini-2.5-flash", ⟨3/40, 3/10⟩)]

/-- Scenario snapshot S1: 1000 cumulative requests, 50000 tokens. -/
def snapshotS1 : Usage :=
  { total_requests := 1000, success_count := 900, failure_count := 100, total_tokens := 50000
    apis := [("key1", { models := [("gemini-2.5-flash",
      { total_requests := 1000, total_tokens := 50000
        details := [{ tokens := { input_tokens := 40000, output_tokens := 10000,
                                  total_tokens := 50000 } }] })] })] }

/-- Scenario snapshot S2 after a proxy restart: counters dropped to
200 requests and 10000 tokens. -/
def snapshotS2 : Usage :=
  { total_requests := 200, success_count := 150, failure_count := 50, total_tokens := 10000
    apis := [("key1", { models := [("gemini-2.5-flash",
      { total_requests := 200, total_tokens := 10000
        details := [{ tokens := { input_tokens := 8000, output_tokens := 2000,
                                  total_tokens := 10000 } }] })] })] }

/-- A usage document whose global counters are nonzero although its
apis mapping lists no models at all. -/
def noModelUsage : Usage :=
  { total_requests := 1000, success_count := 800, failure_count := 200, total_tokens := 50000 }

/-- Rows for the data-gap scenario, in seconds from the baseline
snapshot (Sat 23:00): the first inner snapshot 28 hours later
(Mon 03:00) and the latest at 6000 tokens; the window starts 25 hours
after the baseline (Mon 00:00 = 90000 s). -/
def gapRows : List Row :=
  [ { created_at := 0, model_name := "m", total_tokens := 1000, request_count := 0 },
    { created_at := 100800, model_name := "m", total_tokens := 5000, request_count := 0 },
    { created_at := 200000, model_name := "m", total_tokens := 6000, request_count := 0 } ]

/- ============================================================
   Claim theorems
   ============================================================ -/

/-- C6: for every rate-limit config with a parseable
reset_anchor_timestamp, the effective window start is the anchor when
the anchor is strictly newer than the naturally computed window start,
and the natural window start otherwise. -/
theorem C6_anchor_override (calculated a : Int) :
    (a > calculated → effectiveWindowStart calculated (some a) = a) ∧
    (¬ a > calculated → effectiveWindowStart calculated (some a) = calculated) := by
  constructor <;> intro h <;> simp [effectiveWindowStart, h]

/-- Witness for C6 at concrete inputs: an anchor at 200 overrides a
natural start of 100; an anchor at 50 is ignored. -/
theorem C6_anchor_override_witness :
    effectiveWindowStart 100 (some 200) = 200 ∧ effectiveWindowStart 100 (some 50) = 100 :=
  ⟨(C6_anchor_override 100 200).1 (by decide), (C6_anchor_override 100 50).2 (by decide)⟩

/-- C9: a failed usage fetch (none) aborts the tick with no snapshot,
model-usage row or daily-stat write, while a failed auth-files fetch
alone still runs the credential aggregation against an empty catalog
and writes the summary row (the same row an explicitly empty catalog
would produce). -/
theorem C9_fetch_failure_disposition (pricing : List (String × Price)) (db : DB)
    (u : Usage) (s : Option SummaryRow) :
    run_full_sync_once pricing db none = db ∧
    credential_sync (some u) none s = credential_sync (some u) (some []) s ∧
    (credential_sync (some u) none s).2 =
      some { credentials := (aggregate_stats u []).1
             api_keys := (aggregate_stats u []).2
             total_credentials := (aggregate_stats u []).1.length
             total_api_keys := (aggregate_stats u []).2.length } :=
  ⟨rfl, rfl, rfl⟩

/-- C2: when a previous snapshot exists the global increments are the
counter differences current minus previous, and a negative request or
token difference makes the tick adopt the current cumulative values as
the increments with inc_cost set to the new snapshot's total cost;
consequently, in the restart scenario where S1 reports 1000 total
requests and S2 reports 200, the day's total_requests reaches 1200. -/
theorem C2_restart_increments :
    (∀ (prev : Snapshot) (cr cs cf ct : Int) (cc tc : Rat),
      (¬ (cr - prev.total_requests < 0 ∨ ct - prev.total_tokens < 0) →
        globalIncrements prev cr cs cf ct cc tc =
          { inc_requests := cr - prev.total_requests
            inc_success := cs - prev.success_count
            inc_failure := cf - prev.failure_count
            inc_tokens := ct - prev.total_tokens
            inc_cost := cc - prev.cumulative_cost_usd }) ∧
      ((cr - prev.total_requests < 0 ∨ ct - prev.total_tokens < 0) →
        globalIncrements prev cr cs cf ct cc tc =
          { inc_requests := cr, inc_success := cs, inc_failure := cf
            inc_tokens := ct, inc_cost := tc })) ∧
    (store_usage_data scenarioPricing
        (store_usage_data scenarioPricing {} snapshotS1) snapshotS2).daily.map
      (fun d => d.total_requests) = some 1200 := by
  refine ⟨fun prev cr cs cf ct cc tc => ⟨fun h => ?_, fun h => ?_⟩, by decide⟩
  · simp only [globalIncrements]
    rw [if_neg h]
  · simp only [globalIncrements]
    rw [if_pos h]

/-- Witness for C2: a restart from 1000 requests down to 200 adopts
the current cumulative values as the increments. -/
theorem C2_restart_increments_witness :
    globalIncrements
        { total_requests := 1000, success_count := 900, failure_count := 100
          total_tokens := 50000, cumulative_cost_usd := 7 }
        200 150 50 10000 9 2 =
      { inc_requests := 200, inc_success := 150, inc_failure := 50
        inc_tokens := 10000, inc_cost := 2 } :=
  (C2_restart_increments.1
    { total_requests := 1000, success_count := 900, failure_count := 100
      total_tokens := 50000, cumulative_cost_usd := 7 }
    200 150 50 10000 9 2).2 (by decide)

/-- C3: a per-(model, endpoint) delta with d_cost above 10 USD that is
within 0.10 USD of the key's full current cumulative cost is dropped
from the breakdown deltas; its d_req, d_tok and d_cost are subtracted
from the global increments and the success and failure increments are
left unchanged by this step. -/
theorem C3_false_start_filter (prevMap currMap : List ((String × String) × ModelRecord))
    (st : LoopState) (key : String × String)
    (h : (keyDelta prevMap currMap key).d_cost > 10 ∧
      ratAbs ((keyDelta prevMap currMap key).d_cost -
        (keyDelta prevMap currMap key).c_cost) < 1/10) :
    (processKey prevMap currMap st key).bd = st.bd ∧
    (processKey prevMap currMap st key).inc.inc_success = st.inc.inc_success ∧
    (processKey prevMap currMap st key).inc.inc_failure = st.inc.inc_failure ∧
    (processKey prevMap currMap st key).inc.inc_requests =
      st.inc.inc_requests - (keyDelta prevMap currMap key).d_req ∧
    (processKey prevMap currMap st key).inc.inc_tokens =
      st.inc.inc_tokens - (keyDelta prevMap currMap key).d_tok ∧
    (processKey prevMap currMap st key).inc.inc_cost =
      st.inc.inc_cost - (keyDelta prevMap currMap key).d_cost := by
  simp only [processKey]
  rw [if_pos h]
  exact ⟨rfl, rfl, rfl, rfl, rfl, rfl⟩

/-- Previous-snapshot map for the C3 witness: empty (the key is new). -/
def fsPrevMap : List ((String × String) × ModelRecord) := []

/-- Current map for the C3 witness: a newly visible key carrying 12
USD of historical cost. -/
def fsCurrMap : List ((String × String) × ModelRecord) :=
  [(("m", "e"), { model_name := "m", api_endpoint := "e", request_count := 5
                  input_tokens := 0, output_tokens := 0, total_tokens := 50
                  estimated_cost_usd := 12 })]

/-- Loop state for the C3 witness. -/
def fsState : LoopState :=
  ⟨{ inc_requests := 100, inc_success := 60, inc_failure := 40
     inc_tokens := 1000, inc_cost := 20 }, {}⟩

/-- Witness for C3: the 12-USD false start is dropped and subtracted,
with success and failure untouched. -/
theorem C3_false_start_filter_witness :
    (processKey fsPrevMap fsCurrMap fsState ("m", "e")).bd = fsState.bd ∧
    (processKey fsPrevMap fsCurrMap fsState ("m", "e")).inc.inc_success =
      fsState.inc.inc_success ∧
    (processKey fsPrevMap fsCurrMap fsState ("m", "e")).inc.inc_failure =
      fsState.inc.inc_failure ∧
    (processKey fsPrevMap fsCurrMap fsState ("m", "e")).inc.inc_requests =
      fsState.inc.inc_requests - (keyDelta fsPrevMap fsCurrMap ("m", "e")).d_req ∧
    (processKey fsPrevMap fsCurrMap fsState ("m", "e")).inc.inc_tokens =
      fsState.inc.inc_tokens - (keyDelta fsPrevMap fsCurrMap ("m", "e")).d_tok ∧
    (processKey fsPrevMap fsCurrMap fsState ("m", "e")).inc.inc_cost =
      fsState.inc.inc_cost - (keyDelta fsPrevMap fsCurrMap ("m", "e")).d_cost :=
  C3_false_start_filter fsPrevMap fsCurrMap fsState ("m", "e") (by decide)

/-- C4 counterexample: on a tick with no previous snapshot the
consistency-override step is skipped, so the global increments are not
set to the safe sums: here the increments stay at 1000 requests while
the breakdown-delta sum is 0. -/
theorem C4_counterexample :
    (consistencyOverride false
      { inc_requests := 1000, inc_success := 800, inc_failure := 200
        inc_tokens := 50000, inc_cost := 5 } {}).inc_requests = 1000 ∧
    bdRequests ({} : Breakdown) = 0 ∧ (1000 : Int) ≠ 0 :=
  ⟨rfl, rfl, by decide⟩

/-- C4 (amended to ticks with a previous snapshot): the override step
recomputes the safe increments as the sums over the breakdown-delta
models and installs them as the global request, token and cost
increments, and when inc_requests is positive and the safe-to-actual
ratio falls below 0.99 the success and failure increments are scaled
by that ratio clamped to the unit interval (truncated to integers). -/
theorem C4_consistency_override (inc : Deltas) (bd : Breakdown) :
    (consistencyOverride true inc bd).inc_requests = bdRequests bd ∧
    (consistencyOverride true inc bd).inc_tokens = bdTokens bd ∧
    (consistencyOverride true inc bd).inc_cost = bdCost bd ∧
    (inc.inc_requests > 0 →
      (bdRequests bd : Rat) / (inc.inc_requests : Rat) < 99/100 →
      (consistencyOverride true inc bd).inc_success =
        intTrunc ((inc.inc_success : Rat) *
          ratMax 0 (ratMin 1 ((bdRequests bd : Rat) / (inc.inc_requests : Rat)))) ∧
      (consistencyOverride true inc bd).inc_failure =
        intTrunc ((inc.inc_failure : Rat) *
          ratMax 0 (ratMin 1 ((bdRequests bd : Rat) / (inc.inc_requests : Rat))))) := by
  refine ⟨rfl, rfl, rfl, fun h1 h2 => ?_⟩
  have hclamp : ratMax 0 (ratMin 1 ((bdRequests bd : Rat) / (inc.inc_requests : Rat))) < 99/100 := by
    unfold ratMax ratMin
    split <;> split <;> linarith
  simp only [consistencyOverride]
  rw [if_pos h1, if_pos hclamp]
  exact ⟨rfl, rfl⟩

/-- Breakdown-delta object for the C4 witness: 50 requests worth of
per-model deltas against 100 global incremental requests. -/
def ovBd : Breakdown :=
  { models := [("m", { requests := 50, tokens := 500, cost := 3 })] }

/-- Global increments for the C4 witness. -/
def ovInc : Deltas :=
  { inc_requests := 100, inc_success := 60, inc_failure := 40
    inc_tokens := 1000, inc_cost := 7 }

/-- Witness for C4: with a 0.5 safe-to-actual ratio the success and
failure increments are halved and the globals become the safe sums. -/
theorem C4_consistency_override_witness :
    (consistencyOverride true ovInc ovBd).inc_requests = bdRequests ovBd ∧
    (consistencyOverride true ovInc ovBd).inc_success =
      intTrunc ((ovInc.inc_success : Rat) *
        ratMax 0 (ratMin 1 ((bdRequests ovBd : Rat) / (ovInc.inc_requests : Rat)))) :=
  ⟨(C4_consistency_override ovInc ovBd).1,
   ((C4_consistency_override ovInc ovBd).2.2.2 (by decide) (by decide)).1⟩

/-- C1 counterexample: a first tick whose usage document reports 1000
global requests but lists no per-model data stores a DailyStat with
total_requests 1000 over an empty breakdown, so the claimed equality
with the breakdown sums fails for that stored row. -/
theorem C1_counterexample :
    (store_usage_data DEFAULT_PRICING {} noModelUsage).daily.map
        (fun d => (d.total_requests, bdRequests d.breakdown)) = some (1000, 0) ∧
    (1000 : Int) ≠ 0 :=
  ⟨by decide, by decide⟩

/-- Shape of the stored daily row: every tick upserts the result of
the final assembly step. -/
theorem store_usage_data_daily_shape (pricing : List (String × Price)) (db : DB) (u : Usage) :
    ∃ e i m, (store_usage_data pricing db u).daily = some (finalizeDaily e i m) :=
  ⟨_, _, _, rfl⟩

/-- The final assembly keeps the merged breakdown and installs each
breakdown sum as the corresponding total whenever it is positive. -/
theorem finalizeDaily_props (e : DailyStat) (i : Deltas) (m : Breakdown) :
    (finalizeDaily e i m).breakdown = m ∧
    (bdRequests m > 0 → (finalizeDaily e i m).total_requests = bdRequests m) ∧
    (bdTokens m > 0 → (finalizeDaily e i m).total_tokens = bdTokens m) ∧
    (bdCost m > 0 → (finalizeDaily e i m).estimated_cost_usd = bdCost m) := by
  refine ⟨rfl, fun h => ?_, fun h => ?_, fun h => ?_⟩ <;> simp [finalizeDaily, h]

/-- C1 (amended): after every tick, each stored DailyStat total equals
the sum of the corresponding field over its breakdown models whenever
that sum is positive (when a sum is not positive the code falls back
to the prior total plus the global increment, as the counterexample
with an empty models mapping shows). -/
theorem C1_selfheal_coherence (pricing : List (String × Price)) (db : DB) (u : Usage)
    (d : DailyStat) (h : (store_usage_data pricing db u).daily = some d) :
    (bdRequests d.breakdown > 0 → d.total_requests = bdRequests d.breakdown) ∧
    (bdTokens d.breakdown > 0 → d.total_tokens = bdTokens d.breakdown) ∧
    (bdCost d.breakdown > 0 → d.estimated_cost_usd = bdCost d.breakdown) := by
  obtain ⟨e, i, m, hd⟩ := store_usage_data_daily_shape pricing db u
  rw [h] at hd
  obtain rfl : d = finalizeDaily e i m := Option.some.inj hd
  obtain ⟨hb, hr, ht, hc⟩ := finalizeDaily_props e i m
  rw [hb]
  exact ⟨hr, ht, hc⟩

/-- Usage document for the C1 witness: one model on one endpoint. -/
def oneModelUsage : Usage :=
  { total_requests := 10, success_count := 7, failure_count := 3, total_tokens := 100
    apis := [("k", { models := [("m",
      { total_requests := 10, total_tokens := 100
        details := [{ tokens := { input_tokens := 100, output_tokens := 0,
                                  total_tokens := 100 } }] })] })] }

/-- The daily row stored by a first tick over oneModelUsage with an
empty pricing table (everything priced at the default rate). -/
def oneModelDaily : DailyStat :=
  { total_requests := 10, success_count := 7, failure_count := 3, total_tokens := 100
    estimated_cost_usd := 3/200000
    breakdown :=
      { models := [("m", { requests := 10, tokens := 100, cost := 3/200000
                           input_tokens := 100, output_tokens := 0 })]
        endpoints := [("k", { requests := 10, tokens := 100, cost := 3/200000
                              models := [("m", { requests := 10, tokens := 100
                                                 cost := 3/200000 })] })] } }

/-- Witness for C1 (amended) at a concrete tick with a positive
breakdown request sum. -/
theorem C1_selfheal_coherence_witness :
    bdRequests oneModelDaily.breakdown > 0 ∧
    oneModelDaily.total_requests = bdRequests oneModelDaily.breakdown :=
  ⟨by decide,
   (C1_selfheal_coherence [] {} oneModelUsage oneModelDaily (by decide)).1 (by decide)⟩

/-- Value looked up in an association list built by mapping a function
over a key list. -/
theorem alookup_map_fn {α : Type} (keys : List String) (g : String → α) (k : String) (r : α)
    (h : alookup (keys.map (fun n => (n, g n))) k = some r) : r = g k := by
  induction keys with
  | nil => simp [alookup] at h
  | cons a t ih =>
    simp only [List.map, alookup] at h
    split at h
    · rename_i heq
      cases h
      rw [heq]
    · exact ih h

/-- C5 counterexample: with the baseline at Sat 23:00 (t = 0 s,
tokens 1000), the first inner snapshot at Mon 03:00 (t = 100800 s,
tokens 5000), the window start at Mon 00:00 (t = 90000 s) and the
latest snapshot at 6000 tokens, the computed window usage is 1429
tokens, not the 4572 the claim states (the claimed ratio 3h/28h
contradicts the claim's own formula, which gives 25h/28h). -/
theorem C5_counterexample :
    calculate_usage gapRows "m" 90000 = { total_tokens := 1429, request_count := 0 } ∧
    (1429 : Int) ≠ 4572 :=
  ⟨by decide, by decide⟩

/-- C5 (amended): the synthetic baseline interpolates each model's
counters as synth = round(baseline + ratio * (first_inner − baseline))
with ratio = (window_start − baseline_time) / (first_inner_time −
baseline_time) clamped to the unit interval, and the gap branch
computes the delta of the latest snapshot against that synthetic
baseline; in the concrete scenario the ratio is 25h/28h, the synthetic
baseline is 4571 tokens and the window usage is 6000 − 4571 = 1429. -/
theorem C5_gap_interpolation_amended :
    (∀ (bm im : List (String × MU)) (ratio : Rat) (name : String) (rec : MU),
      alookup (interpolate_snapshot_map bm im ratio) name = some rec →
      rec.total_tokens = pyRound ((((alookup bm name).getD {}).total_tokens : Rat) +
        ratio * ((((alookup im name).getD ((alookup bm name).getD {})).total_tokens : Rat) -
          (((alookup bm name).getD {}).total_tokens : Rat))) ∧
      rec.request_count = pyRound ((((alookup bm name).getD {}).request_count : Rat) +
        ratio * ((((alookup im name).getD ((alookup bm name).getD {})).request_count : Rat) -
          (((alookup bm name).getD {}).request_count : Rat)))) ∧
    (∀ (rows : List Row) (pattern : String) (since latest b fi : Int),
      latestTime rows pattern = some latest →
      ¬ latest < since →
      baselineTime rows pattern since = some b →
      firstInnerTime rows pattern since = some fi →
      fi - b > 1800 →
      calculate_usage rows pattern since =
        calculate_delta_from_snapshots rows pattern latest b
          (some (interpolate_snapshot_map (build_snapshot_map rows pattern b)
            (build_snapshot_map rows pattern fi)
            (ratMax 0 (ratMin 1 (((since - b : Int) : Rat) / ((fi - b : Int) : Rat))))))) ∧
    calculate_usage gapRows "m" 90000 = { total_tokens := 1429, request_count := 0 } := by
  refine ⟨fun bm im ratio name rec h => ?_, fun rows pattern since latest b fi hl hns hb hf hgap => ?_, by decide⟩
  · simp only [interpolate_snapshot_map] at h
    have := alookup_map_fn (interpKeys bm im) _ name rec h
    rw [this]
    exact ⟨rfl, rfl⟩
  · have hpos : fi - b > 0 := by linarith
    unfold calculate_usage
    rw [hl]
    simp only
    rw [if_neg hns, hb, hf]
    simp only
    rw [if_pos hgap, if_pos hpos]

/-- Baseline snapshot map for the C5 witness. -/
def bmW : List (String × MU) := [("x", { total_tokens := 1000, request_count := 0 })]

/-- First-inner snapshot map for the C5 witness. -/
def imW : List (String × MU) := [("x", { total_tokens := 5000, request_count := 0 })]

/-- Witness for C5 (amended): the interpolation formula at the
scenario's numbers (ratio 25/28 of the way from 1000 to 5000 tokens
rounds to 4571), and the gap branch taken on the scenario rows. -/
theorem C5_gap_interpolation_witness :
    (({ total_tokens := 4571, request_count := 0 } : MU).total_tokens =
      pyRound ((((alookup bmW "x").getD {}).total_tokens : Rat) +
        (25/28) * ((((alookup imW "x").getD ((alookup bmW "x").getD {})).total_tokens : Rat) -
          (((alookup bmW "x").getD {}).total_tokens : Rat)))) ∧
    calculate_usage gapRows "m" 90000 =
      calculate_delta_from_snapshots gapRows "m" 200000 0
        (some (interpolate_snapshot_map (build_snapshot_map gapRows "m" 0)
          (build_snapshot_map gapRows "m" 100800)
          (ratMax 0 (ratMin 1 (((90000 - 0 : Int) : Rat) / ((100800 - 0 : Int) : Rat)))))) :=
  ⟨(C5_gap_interpolation_amended.1 bmW imW (25/28) "x"
      { total_tokens := 4571, request_count := 0 } (by decide)).1,
   C5_gap_interpolation_amended.2.1 gapRows "m" 90000 200000 0 100800
     (by decide) (by decide) (by decide) (by decide) (by decide)⟩

/-- Lookup distributes over list append, left list first. -/
theorem alookup_append {α : Type} (l1 l2 : List (String × α)) (k : String) :
    alookup (l1 ++ l2) k =
      match alookup l1 k with
      | some v => some v
      | none => alookup l2 k := by
  induction l1 with
  | nil => simp [alookup]
  | cons a t ih =>
    obtain ⟨k', v⟩ := a
    simp only [List.cons_append, alookup]
    split
    · rfl
    · exact ih

/-- Lookup in the overridden-base part of a Python dict merge. -/
theorem alookup_map_overlay {α : Type} (base overlay : List (String × α)) (k : String) :
    alookup (base.map (fun p => (p.1, (alookup overlay p.1).getD p.2))) k =
      (alookup base k).map (fun v => (alookup overlay k).getD v) := by
  induction base with
  | nil => simp [alookup]
  | cons a t ih =>
    obtain ⟨k', v⟩ := a
    simp only [List.map, alookup]
    split
    · rename_i h
      rw [h]
      rfl
    · exact ih

/-- Lookup in the overlay-only part of a Python dict merge. -/
theorem alookup_filter_base {α : Type} (base overlay : List (String × α)) (k : String) :
    alookup (overlay.filter (fun p => (alookup base p.1).isNone)) k =
      if (alookup base k).isNone then alookup overlay k else none := by
  induction overlay with
  | nil => simp [alookup]
  | cons a t ih =>
    obtain ⟨k', v⟩ := a
    by_cases hk : k' = k
    · subst hk
      cases hbase : alookup base k' with
      | none =>
        simp [List.filter, alookup, hbase, ih]
      | some w =>
        simp [List.filter, alookup, hbase, ih]
    · cases hbase : alookup base k' with
      | none =>
        simp [List.filter, alookup, hbase, ih, hk]
      | some w =>
        simp [List.filter, alookup, hbase, ih, hk]

/-- Lookup in a Python dict merge: the overlay wins, the base backs
it up. -/
theorem alookup_mergeDicts {α : Type} (base overlay : List (String × α)) (k : String) :
    alookup (mergeDicts base overlay) k =
      match alookup overlay k with
      | some v => some v
      | none => alookup base k := by
  unfold mergeDicts
  rw [alookup_append, alookup_map_overlay, alookup_filter_base]
  cases hb : alookup base k <;> cases ho : alookup overlay k <;> simp [hb, ho]

/-- Lookup in the merged pricing table: remote overlay first, then the
built-in table, also when the overlay is empty. -/
theorem alookup_get_model_pricing (remote : List (String × Price)) (k : String) :
    alookup (get_model_pricing remote) k =
      match alookup remote k with
      | some v => some v
      | none => alookup DEFAULT_PRICING k := by
  unfold get_model_pricing
  split
  · rename_i h
    rw [List.isEmpty_iff.mp h]
    simp [alookup]
  · rw [alookup_mergeDicts]
    cases alookup remote k <;> rfl

/-- C7: price resolution tries an exact lowercase match in the remote
overlay, then an exact match in the built-in table, then the first
substring match in either direction over every non-default key of the
merged table, and finally the _default entry at input 0.15 / output
0.60. -/
theorem C7_pricing_lookup_order (remote : List (String × Price)) (model_name : String) :
    (∀ p, alookup remote (strLower model_name) = some p →
      find_pricing_for_model model_name (get_model_pricing remote) = (p, true)) ∧
    (alookup remote (strLower model_name) = none →
      ∀ p, alookup DEFAULT_PRICING (strLower model_name) = some p →
        find_pricing_for_model model_name (get_model_pricing remote) = (p, true)) ∧
    (alookup (get_model_pricing remote) (strLower model_name) = none →
      ∀ pat p, (get_model_pricing remote).find? (fun q =>
          q.1 != "_default" && (strContains (strLower model_name) q.1 ||
            strContains q.1 (strLower model_name))) = some (pat, p) →
        find_pricing_for_model model_name (get_model_pricing remote) = (p, true)) ∧
    (alookup (get_model_pricing remote) (strLower model_name) = none →
      (get_model_pricing remote).find? (fun q =>
          q.1 != "_default" && (strContains (strLower model_name) q.1 ||
            strContains q.1 (strLower model_name))) = none →
      alookup remote "_default" = none →
      find_pricing_for_model model_name (get_model_pricing remote) = (⟨3/20, 3/5⟩, false)) := by
  refine ⟨fun p hp => ?_, fun hr p hp => ?_, fun hm pat p hf => ?_, fun hm hf hd => ?_⟩
  · have h1 : alookup (get_model_pricing remote) (strLower model_name) = some p := by
      rw [alookup_get_model_pricing, hp]
    simp [find_pricing_for_model, h1]
  · have h1 : alookup (get_model_pricing remote) (strLower model_name) = some p := by
      rw [alookup_get_model_pricing, hr]
      exact hp
    simp [find_pricing_for_model, h1]
  · simp [find_pricing_for_model, hm, hf]
  · have hdd : alookup (get_model_pricing remote) "_default" = some ⟨3/20, 3/5⟩ := by
      rw [alookup_get_model_pricing, hd]
      decide
    simp [find_pricing_for_model, hm, hf, hdd]

/-- Witness for C7: with an empty overlay, "GPT-4o" resolves by exact
lowercase match in the built-in table and "zzz" falls through to the
default entry. -/
theorem C7_pricing_lookup_order_witness :
    find_pricing_for_model "GPT-4o" (get_model_pricing []) = (⟨5/2, 10⟩, true) ∧
    find_pricing_for_model "zzz" (get_model_pricing []) = (⟨3/20, 3/5⟩, false) :=
  ⟨(C7_pricing_lookup_order [] "GPT-4o").2.1 (by decide) ⟨5/2, 10⟩ (by decide),
   (C7_pricing_lookup_order [] "zzz").2.2.2 (by decide) (by decide) (by decide)⟩

/-- Replacing in place every row of the table keyed like r does not
change lookups for other ids. -/
theorem lookupStatus_map_replace_ne (t : List StatusRow) (r : StatusRow) (cid : Int)
    (hne : ¬ r.config_id = cid) :
    lookupStatus (t.map (fun s => if s.config_id = r.config_id then r else s)) cid =
      lookupStatus t cid := by
  induction t with
  | nil => rfl
  | cons s t ih =>
    simp only [List.map, lookupStatus]
    by_cases hs : s.config_id = r.config_id
    · have hsc : ¬ s.config_id = cid := by
        rw [hs]
        exact hne
      rw [if_pos hs, if_neg hne, if_neg hsc]
      exact ih
    · rw [if_neg hs]
      by_cases hsc : s.config_id = cid
      · rw [if_pos hsc, if_pos hsc]
      · rw [if_neg hsc, if_neg hsc]
        exact ih

/-- Replacing in place every row keyed like r makes the lookup of
r's own id find r, provided some row with that id exists. -/
theorem lookupStatus_map_replace_eq (t : List StatusRow) (r : StatusRow)
    (hany : t.any (fun s => s.config_id == r.config_id) = true) :
    lookupStatus (t.map (fun s => if s.config_id = r.config_id then r else s)) r.config_id =
      some r := by
  induction t with
  | nil => simp at hany
  | cons s t ih =>
    simp only [List.map, lookupStatus]
    by_cases hs : s.config_id = r.config_id
    · rw [if_pos hs, if_pos rfl]
    · have htail : t.any (fun s => s.config_id == r.config_id) = true := by
        simp only [List.any_cons, Bool.or_eq_true] at hany
        rcases hany with h | h
        · exact absurd (beq_iff_eq.mp h) hs
        · exact h
      rw [if_neg hs, if_neg hs]
      exact ih htail

/-- Lookup in a table with one row appended. -/
theorem lookupStatus_append_single (t : List StatusRow) (r : StatusRow) (cid : Int) :
    lookupStatus (t ++ [r]) cid =
      ((lookupStatus t cid).map some).getD (if r.config_id = cid then some r else none) := by
  induction t with
  | nil => rfl
  | cons s t ih =>
    simp only [List.cons_append, lookupStatus]
    by_cases hs : s.config_id = cid
    · rw [if_pos hs, if_pos hs]
      rfl
    · rw [if_neg hs, if_neg hs]
      exact ih

/-- A table with no row of the given id looks up to none. -/
theorem lookupStatus_eq_none (t : List StatusRow) (cid : Int)
    (h : t.any (fun s => s.config_id == cid) = false) :
    lookupStatus t cid = none := by
  induction t with
  | nil => rfl
  | cons s t ih =>
    simp only [List.any_cons, Bool.or_eq_false_iff] at h
    have hne : ¬ s.config_id = cid := by
      intro hh
      simp [hh] at h
    simp only [lookupStatus]
    rw [if_neg hne]
    exact ih h.2

/-- Lookup after a single status upsert: the upserted id now maps to
the new row, every other id is untouched. -/
theorem lookupStatus_upsert (t : List StatusRow) (r : StatusRow) (cid : Int) :
    lookupStatus (upsertStatus t r) cid =
      if r.config_id = cid then some r else lookupStatus t cid := by
  unfold upsertStatus
  split
  · rename_i hany
    by_cases hr : r.config_id = cid
    · subst hr
      rw [if_pos rfl]
      exact lookupStatus_map_replace_eq t r hany
    · rw [if_neg hr]
      exact lookupStatus_map_replace_ne t r cid hr
  · rename_i hany
    have hf : t.any (fun s => s.config_id == r.config_id) = false := by
      simpa using hany
    rw [lookupStatus_append_single]
    by_cases hr : r.config_id = cid
    · subst hr
      have hnone : lookupStatus t r.config_id = none := lookupStatus_eq_none t r.config_id hf
      simp [hnone]
    · cases h : lookupStatus t cid <;> simp [hr, h]

/-- One engine pass is the fold of the upserts of the rows computed
from the configs. -/
theorem sync_limits_foldl (now : Int) (rows : List Row) (configs : List RateLimitConfig)
    (table : List StatusRow) :
    sync_limits now rows configs table =
      (configs.filterMap (statusRowFor now rows)).foldl upsertStatus table := by
  induction configs generalizing table with
  | nil => rfl
  | cons c cs ih =>
    simp only [sync_limits, List.foldl, List.filterMap]
    cases h : statusRowFor now rows c <;> simp only [h] <;> exact ih _

/-- The last row carrying the given config id in a row sequence. -/
def lastWithId (rowsR : List StatusRow) (cid : Int) : Option StatusRow :=
  rowsR.foldl (fun acc r => if r.config_id = cid then some r else acc) none

/-- Folding the last-with-id step from an arbitrary accumulator. -/
theorem lastWithId_from (R : List StatusRow) (cid : Int) (acc : Option StatusRow) :
    R.foldl (fun a r => if r.config_id = cid then some r else a) acc =
      ((lastWithId R cid).map some).getD acc := by
  induction R generalizing acc with
  | nil => rfl
  | cons r R ih =>
    simp only [List.foldl]
    rw [ih]
    have hr : lastWithId (r :: R) cid =
        ((lastWithId R cid).map some).getD (if r.config_id = cid then some r else none) := by
      unfold lastWithId
      simp only [List.foldl]
      exact ih _
    rw [hr]
    cases lastWithId R cid <;> by_cases h : r.config_id = cid <;> simp [h]

/-- Lookup after a sequence of upserts: the last upserted row of the
id wins, else the original table answers. -/
theorem lookupStatus_foldl_upserts (R : List StatusRow) (t : List StatusRow) (cid : Int) :
    lookupStatus (R.foldl upsertStatus t) cid =
      ((lastWithId R cid).map some).getD (lookupStatus t cid) := by
  induction R generalizing t with
  | nil => rfl
  | cons r R ih =>
    simp only [List.foldl]
    rw [ih (upsertStatus t r), lookupStatus_upsert]
    have hr : lastWithId (r :: R) cid =
        ((lastWithId R cid).map some).getD (if r.config_id = cid then some r else none) := by
      unfold lastWithId
      simp only [List.foldl]
      exact lastWithId_from R cid _
    rw [hr]
    cases lastWithId R cid <;> by_cases h : r.config_id = cid <;> simp [h]

/-- C8: running the rate-limit engine twice in succession with the
same clock value, model-usage rows and configs produces the same
status row for every config id as running it once; the pass is a pure
function of its inputs and the upsert keyed by config_id replaces
rather than accumulates. -/
theorem C8_sync_idempotent (now : Int) (rows : List Row) (configs : List RateLimitConfig)
    (table : List StatusRow) (cid : Int) :
    lookupStatus (sync_limits now rows configs (sync_limits now rows configs table)) cid =
      lookupStatus (sync_limits now rows configs table) cid := by
  simp only [sync_limits_foldl, lookupStatus_foldl_upserts]
  cases lastWithId (configs.filterMap (statusRowFor now rows)) cid <;> simp

/-- A property of the values survives a dict adjust when the update
function preserves it and the initial value satisfies it. -/
theorem adjustOrInit_forall {α : Type} (P : α → Prop) (l : List (String × α)) (k : String)
    (init : α) (f : α → α)
    (hl : ∀ q ∈ l, P q.2) (hf : ∀ v, P v → P (f v)) (hinit : P init) :
    ∀ q ∈ adjustOrInit l k init f, P q.2 := by
  induction l with
  | nil =>
    intro q hq
    simp only [adjustOrInit, List.mem_singleton] at hq
    rw [hq]
    exact hf init hinit
  | cons a t ih =>
    obtain ⟨k', v⟩ := a
    intro q hq
    simp only [adjustOrInit] at hq
    split at hq
    · rcases List.mem_cons.mp hq with h | h
      · rw [h]
        exact hf v (hl (k', v) (List.mem_cons_self _ _))
      · exact hl q (List.mem_cons_of_mem _ h)
    · rcases List.mem_cons.mp hq with h | h
      · rw [h]
        exact hl (k', v) (List.mem_cons_self _ _)
      · exact ih (fun q hq => hl q (List.mem_cons_of_mem _ hq)) q h

/-- Sum of an integer field over a dict adjust whose update adds δ to
the field and whose initial value carries 0. -/
theorem sum_adjustOrInit {α : Type} (g : String × α → Int) (l : List (String × α)) (k : String)
    (init : α) (f : α → α) (δ : Int)
    (hf : ∀ kk v, g (kk, f v) = g (kk, v) + δ) (hinit : ∀ kk, g (kk, init) = 0) :
    ((adjustOrInit l k init f).map g).sum = (l.map g).sum + δ := by
  induction l with
  | nil => simp [adjustOrInit, hf, hinit]
  | cons a t ih =>
    obtain ⟨k', v⟩ := a
    simp only [adjustOrInit]
    split
    · simp only [List.map, List.sum_cons, hf]
      omega
    · simp only [List.map, List.sum_cons, ih]
      omega

/-- Internal coherence of a per-credential aggregate: success and
failure split the request count and every top-level counter is the
sum of its per-model sub-counters. -/
def credCoherent (c : CredAgg) : Prop :=
  c.success_count + c.failure_count = c.total_requests ∧
  c.total_requests = (c.models.map (fun m => m.2.requests)).sum ∧
  c.input_tokens = (c.models.map (fun m => m.2.input_tokens)).sum ∧
  c.output_tokens = (c.models.map (fun m => m.2.output_tokens)).sum ∧
  c.reasoning_tokens = (c.models.map (fun m => m.2.reasoning_tokens)).sum ∧
  c.cached_tokens = (c.models.map (fun m => m.2.cached_tokens)).sum ∧
  c.total_tokens = (c.models.map (fun m => m.2.total_tokens)).sum

/-- Internal coherence of a per-API-key aggregate. -/
def akCoherent (a : ApiKeyAgg) : Prop :=
  a.success_count + a.failure_count = a.total_requests ∧
  a.total_requests = (a.models.map (fun m => m.2.requests)).sum

/-- Both aggregation maps hold only coherent values. -/
def stateCoherent (st : AggState) : Prop :=
  (∀ q ∈ st.creds, credCoherent q.2) ∧ (∀ q ∈ st.aks, akCoherent q.2)

/-- The zero credential aggregate is coherent. -/
theorem credCoherent_zero : credCoherent {} := by
  refine ⟨rfl, rfl, rfl, rfl, rfl, rfl, rfl⟩

/-- The zero API-key aggregate is coherent. -/
theorem akCoherent_zero : akCoherent {} := ⟨rfl, rfl⟩

/-- Attributing one details entry preserves coherence of both maps. -/
theorem detailStep_preserves (ba bn : List (String × CredInfo)) (ak mn : String)
    (st : AggState) (d : UsageDetail) (h : stateCoherent st) :
    stateCoherent (detailStep ba bn ak mn st d) := by
  obtain ⟨hc, ha⟩ := h
  constructor
  · simp only [detailStep]
    apply adjustOrInit_forall credCoherent _ _ _ _ hc ?_ credCoherent_zero
    intro v hv
    obtain ⟨h1, h2, h3, h4, h5, h6, h7⟩ := hv
    by_cases hi : v.info.isNone = true
    · rw [if_pos hi]
      dsimp only [credCoherent]
      refine ⟨?_, ?_, ?_, ?_, ?_, ?_, ?_⟩
      · cases d.failed <;> simp <;> omega
      · rw [@sum_adjustOrInit ModelCounters (fun m => m.2.requests) _ _ _ _ 1 (fun kk v => rfl) (fun kk => rfl)]
        omega
      · rw [@sum_adjustOrInit ModelCounters (fun m => m.2.input_tokens) _ _ _ _ d.tokens.input_tokens
          (fun kk v => rfl) (fun kk => rfl)]
        omega
      · rw [@sum_adjustOrInit ModelCounters (fun m => m.2.output_tokens) _ _ _ _ d.tokens.output_tokens
          (fun kk v => rfl) (fun kk => rfl)]
        omega
      · rw [@sum_adjustOrInit ModelCounters (fun m => m.2.reasoning_tokens) _ _ _ _ d.tokens.reasoning_tokens
          (fun kk v => rfl) (fun kk => rfl)]
        omega
      · rw [@sum_adjustOrInit ModelCounters (fun m => m.2.cached_tokens) _ _ _ _ d.tokens.cached_tokens
          (fun kk v => rfl) (fun kk => rfl)]
        omega
      · rw [@sum_adjustOrInit ModelCounters (fun m => m.2.total_tokens) _ _ _ _ d.tokens.total_tokens
          (fun kk v => rfl) (fun kk => rfl)]
        omega
    · rw [if_neg hi]
      dsimp only [credCoherent]
      refine ⟨?_, ?_, ?_, ?_, ?_, ?_, ?_⟩
      · cases d.failed <;> simp <;> omega
      · rw [@sum_adjustOrInit ModelCounters (fun m => m.2.requests) _ _ _ _ 1 (fun kk v => rfl) (fun kk => rfl)]
        omega
      · rw [@sum_adjustOrInit ModelCounters (fun m => m.2.input_tokens) _ _ _ _ d.tokens.input_tokens
          (fun kk v => rfl) (fun kk => rfl)]
        omega
      · rw [@sum_adjustOrInit ModelCounters (fun m => m.2.output_tokens) _ _ _ _ d.tokens.output_tokens
          (fun kk v => rfl) (fun kk => rfl)]
        omega
      · rw [@sum_adjustOrInit ModelCounters (fun m => m.2.reasoning_tokens) _ _ _ _ d.tokens.reasoning_tokens
          (fun kk v => rfl) (fun kk => rfl)]
        omega
      · rw [@sum_adjustOrInit ModelCounters (fun m => m.2.cached_tokens) _ _ _ _ d.tokens.cached_tokens
          (fun kk v => rfl) (fun kk => rfl)]
        omega
      · rw [@sum_adjustOrInit ModelCounters (fun m => m.2.total_tokens) _ _ _ _ d.tokens.total_tokens
          (fun kk v => rfl) (fun kk => rfl)]
        omega
  · simp only [detailStep]
    apply adjustOrInit_forall akCoherent _ _ _ _ ha ?_ akCoherent_zero
    intro v hv
    obtain ⟨h1, h2⟩ := hv
    dsimp only [akCoherent]
    refine ⟨?_, ?_⟩
    · cases d.failed <;> simp <;> omega
    · rw [@sum_adjustOrInit AkModel (fun m => m.2.requests) _ _ _ _ 1 (fun kk v => rfl) (fun kk => rfl)]
      omega

/-- A property closed under the step survives a left fold. -/
theorem foldl_preserves {σ β : Type} (P : σ → Prop) (f : σ → β → σ)
    (hf : ∀ s b, P s → P (f s b)) :
    ∀ (l : List β) (s : σ), P s → P (l.foldl f s) := by
  intro l
  induction l with
  | nil => exact fun s hs => hs
  | cons b t ih => exact fun s hs => ih _ (hf s b hs)

/-- The whole aggregation loop yields coherent maps. -/
theorem aggLoop_coherent (ba bn : List (String × CredInfo)) (apis : List (String × ApiData)) :
    stateCoherent (aggLoop ba bn apis) := by
  unfold aggLoop
  apply foldl_preserves stateCoherent _ ?_ apis _ ?_
  · intro st ap hst
    apply foldl_preserves stateCoherent _ ?_ ap.2.models _ ?_
    · intro st' mp hst'
      exact foldl_preserves stateCoherent _
        (fun s dd hs => detailStep_preserves ba bn ap.1 mp.1 s dd hs) mp.2.details st' hst'
    · refine ⟨hst.1, ?_⟩
      apply adjustOrInit_forall akCoherent _ _ _ _ hst.2 (fun v hv => hv) akCoherent_zero
  · exact ⟨fun q hq => absurd hq (List.not_mem_nil q), fun q hq => absurd hq (List.not_mem_nil q)⟩

/-- Membership in a stable insert. -/
theorem mem_stableInsert {α : Type} (le : α → α → Bool) (x a : α) (l : List α) :
    a ∈ stableInsert le x l ↔ a = x ∨ a ∈ l := by
  induction l with
  | nil => simp [stableInsert]
  | cons y t ih =>
    simp only [stableInsert]
    split
    · simp
    · simp only [List.mem_cons, ih]
      tauto

/-- Stable sorting does not change membership. -/
theorem mem_stableSort {α : Type} (le : α → α → Bool) (l : List α) (a : α) :
    a ∈ stableSort le l ↔ a ∈ l := by
  induction l with
  | nil => simp [stableSort]
  | cons b t ih =>
    simp only [stableSort, List.foldr] at *
    rw [mem_stableInsert]
    simp [ih]

/-- Serialisation keeps the credential counters and models, hence the
coherence equalities. -/
theorem emitCredStat_coherent (p : String × CredAgg) (h : credCoherent p.2) :
    (emitCredStat p).success_count + (emitCredStat p).failure_count =
      (emitCredStat p).total_requests ∧
    (emitCredStat p).total_requests =
      ((emitCredStat p).models.map (fun m => m.2.requests)).sum ∧
    (emitCredStat p).input_tokens =
      ((emitCredStat p).models.map (fun m => m.2.input_tokens)).sum ∧
    (emitCredStat p).output_tokens =
      ((emitCredStat p).models.map (fun m => m.2.output_tokens)).sum ∧
    (emitCredStat p).reasoning_tokens =
      ((emitCredStat p).models.map (fun m => m.2.reasoning_tokens)).sum ∧
    (emitCredStat p).cached_tokens =
      ((emitCredStat p).models.map (fun m => m.2.cached_tokens)).sum ∧
    (emitCredStat p).total_tokens =
      ((emitCredStat p).models.map (fun m => m.2.total_tokens)).sum := by
  obtain ⟨ck, cred⟩ := p
  obtain ⟨h1, h2, h3, h4, h5, h6, h7⟩ := h
  cases hi : cred.info <;> simp only [emitCredStat, hi] <;>
    exact ⟨h1, h2, h3, h4, h5, h6, h7⟩

/-- Serialisation keeps the API-key counters and models. -/
theorem emitApiKeyStat_coherent (p : String × ApiKeyAgg) (h : akCoherent p.2) :
    (emitApiKeyStat p).success_count + (emitApiKeyStat p).failure_count =
      (emitApiKeyStat p).total_requests ∧
    (emitApiKeyStat p).total_requests =
      ((emitApiKeyStat p).models.map (fun m => m.2.requests)).sum := by
  obtain ⟨ck, a⟩ := p
  exact h

/-- C10: every credential record and every API-key record emitted by
the aggregator satisfies success_count + failure_count =
total_requests and total_requests = sum of the per-model request
sub-counters, and each credential's token totals equal the sums of
the corresponding per-model token sub-counters. -/
theorem C10_aggregation_invariants (u : Usage) (af : List AuthFile) :
    (∀ c ∈ (aggregate_stats u af).1,
      c.success_count + c.failure_count = c.total_requests ∧
      c.total_requests = (c.models.map (fun m => m.2.requests)).sum ∧
      c.input_tokens = (c.models.map (fun m => m.2.input_tokens)).sum ∧
      c.output_tokens = (c.models.map (fun m => m.2.output_tokens)).sum ∧
      c.reasoning_tokens = (c.models.map (fun m => m.2.reasoning_tokens)).sum ∧
      c.cached_tokens = (c.models.map (fun m => m.2.cached_tokens)).sum ∧
      c.total_tokens = (c.models.map (fun m => m.2.total_tokens)).sum) ∧
    (∀ a ∈ (aggregate_stats u af).2,
      a.success_count + a.failure_count = a.total_requests ∧
      a.total_requests = (a.models.map (fun m => m.2.requests)).sum) := by
  have hst := aggLoop_coherent (build_auth_index_map af).1 (build_auth_index_map af).2 u.apis
  constructor
  · intro c hc
    simp only [aggregate_stats] at hc
    rw [mem_stableSort] at hc
    obtain ⟨p, hp, rfl⟩ := List.mem_map.mp hc
    exact emitCredStat_coherent p (hst.1 p hp)
  · intro a ha
    simp only [aggregate_stats] at ha
    rw [mem_stableSort] at ha
    obtain ⟨p, hp, rfl⟩ := List.mem_map.mp ha
    exact emitApiKeyStat_coherent p (hst.2 p hp)

/-- Usage document for the C10 witness: a single successful request
on one API key, one model and one credential. -/
def credUsageW : Usage :=
  { total_requests := 1, success_count := 1, failure_count := 0, total_tokens := 10
    apis := [("k1", { models := [("mA",
      { total_requests := 1, total_tokens := 10
        details := [ { auth_index := "a1", failed := false
                       tokens := { input_tokens := 4, output_tokens := 6,
                                   total_tokens := 10 } } ] })] })] }

/-- The credential record the aggregator emits for credUsageW. -/
def credStatW : CredStat :=
  { auth_index := "a1", source := "", provider := "unknown", email := "a1", label := "a1"
    status := "active", account_type := "inferred"
    total_requests := 1, success_count := 1, failure_count := 0, success_rate := 100
    input_tokens := 4, output_tokens := 6, reasoning_tokens := 0, cached_tokens := 0
    total_tokens := 10
    models := [("mA", { requests := 1, success := 1, failure := 0, input_tokens := 4
                        output_tokens := 6, reasoning_tokens := 0, cached_tokens := 0
                        total_tokens := 10 })]
    api_keys := ["k1"] }

/-- Witness for C10 at the emitted record of credUsageW. -/
theorem C10_aggregation_invariants_witness :
    credStatW.success_count + credStatW.failure_count = credStatW.total_requests ∧
    credStatW.total_requests = (credStatW.models.map (fun m => m.2.requests)).sum ∧
    credStatW.input_tokens = (credStatW.models.map (fun m => m.2.input_tokens)).sum ∧
    credStatW.output_tokens = (credStatW.models.map (fun m => m.2.output_tokens)).sum ∧
    credStatW.reasoning_tokens = (credStatW.models.map (fun m => m.2.reasoning_tokens)).sum ∧
    credStatW.cached_tokens = (credStatW.models.map (fun m => m.2.cached_tokens)).sum ∧
    credStatW.total_tokens = (credStatW.models.map (fun m => m.2.total_tokens)).sum :=
  (C10_aggregation_invariants credUsageW []).1 credStatW (by decide)

end Collector
